import Mathlib

/-!
Verification of the change-detection / notification core of
`overlord_notify.py` (repository tymek805/OverlordNotify).

The embedding models, faithfully to the source:

* the SQLite-backed store `DatabaseManager` (table `items`) as a list of rows
  plus the AUTOINCREMENT counter; the `date DATE DEFAULT CURRENT_DATE` column
  is omitted because no claim depends on it and it never influences control
  flow;
* the operations `get_last_status`, `add_new_status`,
  `update_notification_status`, `items_with_unsent_notification` as
  state-passing functions (a function that only reads returns the state
  unchanged; a statement SQLite rejects returns an error and leaves the state
  unchanged);
* Python run-time values where the source compares values of different types
  (`TranslationItem.check` compares the string `self.status` with the value
  returned by `get_last_status`, which is a whole fetched row tuple or
  `None`): the type `PyVal` mirrors Python equality, under which values of
  different types are unequal;
* `TranslationItem.send_notification` with the behaviour of the SMTP
  transport as an explicit parameter (success / `SMTPAuthenticationError` /
  any other exception), returning the boolean the source returns;
* the file-based variant (`read_file` / `check_for_update`) over an optional
  file content string, with Python `readlines` and `str.strip` spelled out;
* the orchestration loop of `find_item` over an already-parsed observation
  list, recording which e-mails are sent during the run.
-/

/-- A row of the `items` table: `id INTEGER PRIMARY KEY AUTOINCREMENT`,
`title TEXT`, `volume INTEGER`, `status TEXT`,
`is_notified BOOL DEFAULT 0`.  The `date` column is omitted (see the file
header).  `volume` is modelled as the string the program binds; SQLite's
INTEGER affinity applies the same conversion to the stored value and to
every query parameter, so key equality coincides with string equality for
the values this program produces. -/
structure Row where
  id : Nat
  title : String
  volume : String
  status : String
  is_notified : Bool
deriving DecidableEq, Repr

/-- State of the `notify_db.sqlite` store: the rows of `items` and the next
AUTOINCREMENT id (SQLite starts at 1). -/
structure Db where
  rows : List Row
  nextId : Nat
deriving DecidableEq, Repr

/-- The empty store, as created by `CREATE TABLE IF NOT EXISTS items ...`. -/
def emptyDb : Db := ⟨[], 1⟩

/-- Python run-time values as far as this program compares them:
`None`, a string, or a fetched row tuple.  Equality of `PyVal` mirrors
Python `==` on these values: values of different types (different
constructors) are unequal, strings compare by content, row tuples
componentwise. -/
inductive PyVal where
  | vnone
  | vstr (s : String)
  | vrow (r : Row)
deriving DecidableEq, Repr

/-- Row filter of `WHERE title = ? AND volume = ?`. -/
def matchesKey (t v : String) (r : Row) : Bool :=
  r.title == t && r.volume == v

/-- Result of `ORDER BY id DESC LIMIT 1` on a bag of rows: a row of maximal
`id`, or `none` on the empty bag. -/
def maxById : List Row → Option Row
  | [] => none
  | r :: rest =>
    match maxById rest with
    | none => some r
    | some m => if r.id < m.id then some m else some r

/-- The row the query of `get_last_status` (source lines 122-124) fetches for
the key `(t, v)`:
`SELECT * FROM items WHERE title = ? AND volume = ? ORDER BY id DESC LIMIT 1`. -/
def selectLastRow (t v : String) (db : Db) : Option Row :=
  maxById (db.rows.filter (matchesKey t v))

/-- Conversion of `results[0] if results else None` (source line 126) to the
Python value the caller receives: the whole row tuple, or `None`. -/
def optRowToPy : Option Row → PyVal
  | none => PyVal.vnone
  | some r => PyVal.vrow r

/-- `DatabaseManager.get_last_status` (source lines 119-126): runs the
SELECT above and returns `results[0] if results else None`.  The function
issues no write, so the store comes back unchanged. -/
def get_last_status (t v : String) (db : Db) : PyVal × Db :=
  (optRowToPy (selectLastRow t v db), db)

/-- `DatabaseManager.add_new_status` (source lines 128-134):
`INSERT INTO items (title, volume, status) VALUES (?, ?, ?)` followed by
`commit`.  The new row takes the AUTOINCREMENT id and the column defaults,
in particular `is_notified` defaults to `0` (false). -/
def add_new_status (t v s : String) (db : Db) : Db :=
  { rows := db.rows ++ [⟨db.nextId, t, v, s, false⟩], nextId := db.nextId + 1 }

/-- Python exceptions this program can raise at the modelled points. -/
inductive PyError where
  | operationalError
  | programmingError
  | attributeError
deriving DecidableEq, Repr

/-- The SQL text `update_notification_status` issues (source lines 139-140),
with `self.table_name` substituted. -/
def updateNotificationSql : String :=
  "UPDATE items (is_notified) VALUES (TRUE) WHERE title = ? AND volume = ? AND status = ?;"

/-- Splitting a character list at every occurrence of `sep`, keeping empty
pieces; the result is never empty. -/
def splitChar (sep : Char) : List Char → List (List Char)
  | [] => [[]]
  | c :: rest =>
    match splitChar sep rest with
    | [] => [[]]
    | t :: ts => if c = sep then [] :: t :: ts else (c :: t) :: ts

/-- Space-separated tokens of an SQL text, empty pieces dropped. -/
def sqlTokens (sql : String) : List String :=
  ((splitChar ' ' sql.toList).map (fun t => String.mk t)).filter (fun t => t ≠ "")

/-- Whether a statement fits SQLite's UPDATE grammar at the point where this
one deviates: SQLite requires `UPDATE <table> SET <assignments> ...`, so
the token after the table name must be the keyword `SET` (the issued text
is uppercase throughout, so exact comparison suffices).  A statement whose
third token is anything else is rejected at prepare time with a syntax
error. -/
def isValidUpdateStmt (sql : String) : Bool :=
  match sqlTokens sql with
  | kw :: _tbl :: third :: _ => kw == "UPDATE" && third == "SET"
  | _ => false

/-- `DatabaseManager.update_notification_status` (source lines 136-142).
The issued statement uses INSERT-style `(column) VALUES (value)` syntax
inside an UPDATE; were it valid it would set `is_notified` to TRUE on the
rows matching `(title, volume, status)`, but SQLite rejects it at prepare
time, so `cursor.execute` raises `sqlite3.OperationalError` and the store
is left unchanged. -/
def update_notification_status (t v s : String) (db : Db) : Except PyError Db :=
  if isValidUpdateStmt updateNotificationSql then
    Except.ok { db with rows := db.rows.map (fun r =>
      if matchesKey t v r && r.status == s then { r with is_notified := true } else r) }
  else
    Except.error PyError.operationalError

/-- `DatabaseManager.items_with_unsent_notification` (source lines 144-145):
the whole body is the Ellipsis literal `...`, so the method runs no query
and returns Python `None`. -/
def items_with_unsent_notification (db : Db) : PyVal × Db :=
  (PyVal.vnone, db)

/-- `TranslationItem.check` (source lines 65-73): builds a fresh
`DatabaseManager` on the same store and tests
`self.status == db.get_last_status(self)`.  The left side is the status
string, the right side the whole fetched row tuple (or `None`); the
comparison is the Python `==` modelled by equality on `PyVal`.  On
inequality the observation is appended via `add_new_status` and `True` is
returned; on equality nothing is written and `False` is returned. -/
def check (t v s : String) (db : Db) : Bool × Db :=
  if PyVal.vstr s = (get_last_status t v db).1 then
    (false, db)
  else
    (true, add_new_status t v s db)

/-- Behaviour of the SMTP transport during one `send_notification` call:
the `SMTP_SSL`/`login`/`send_message` sequence succeeds, raises
`SMTPAuthenticationError`, or raises some other exception. -/
inductive SmtpBehavior where
  | success
  | authError
  | otherError
deriving DecidableEq, Repr

/-- `TranslationItem.send_notification` (source lines 75-91): attempts the
SMTP send and returns `True` on success, `False` on
`SMTPAuthenticationError` (logged at error severity), and `False` on any
other exception (also logged).  The body contains no `DatabaseManager`
call, so the store is threaded through unchanged in every branch. -/
def send_notification (b : SmtpBehavior) (db : Db) : Bool × Db :=
  match b with
  | SmtpBehavior.success => (true, db)
  | SmtpBehavior.authError => (false, db)
  | SmtpBehavior.otherError => (false, db)

/-- One parsed observation `(title, volume, status)` as `find_item` builds
it from a scraped table cell. -/
structure Observation where
  title : String
  volume : String
  status : String
deriving DecidableEq, Repr

/-- The loop of `find_item` (source lines 181-186): for each observation it
constructs a `TranslationItem` and calls `item.check()`, discarding the
result.  The call `item.send_notification(receiver_email)` is commented out
(lines 185-186) and no other delivery or reconciliation step exists, so the
returned list of e-mails sent during the run is empty. -/
def find_item (obs : List Observation) (db : Db) : Db × List String :=
  (obs.foldl (fun d o => (check o.title o.volume o.status d).2) db, [])

/-- State of a `DatabaseManager` object as far as `__init__`/`close` touch
it: `conn = none` means the attribute `self.connection` was never assigned
(the `sqlite3.connect` call itself raised); `some true` means an open
connection; `some false` a closed one.  A `sqlite3.Connection` object has
no `__bool__`, so it is truthy even after being closed. -/
structure DbManager where
  conn : Option Bool
deriving DecidableEq, Repr

/-- `DatabaseManager.close` (source lines 114-117): `if self.connection:`
raises `AttributeError` when the attribute was never assigned; otherwise
the connection object is truthy (open or closed) and gets closed. -/
def DbManager.close : DbManager → Except PyError DbManager
  | ⟨none⟩ => Except.error PyError.attributeError
  | ⟨some _⟩ => Except.ok ⟨some false⟩

/-- Where, if anywhere, a storage-layer fault (`sqlite3.Error`) strikes
during `DatabaseManager.__init__`: nowhere, in `sqlite3.connect`, or in the
`CREATE TABLE IF NOT EXISTS` execute. -/
inductive InitFault where
  | noFault
  | connectFault
  | createFault
deriving DecidableEq, Repr

/-- `DatabaseManager.__init__` (source lines 98-109).  The try block assigns
`self.connection` and runs `CREATE TABLE`; the `except sqlite3.Error`
handler logs at critical severity and calls `self.close()` — it does not
re-raise, so the original storage fault never leaves the constructor.  When
`connect` itself raised, the handler's `close()` hits the unassigned
attribute and an `AttributeError` (not the storage error) propagates; when
`CREATE TABLE` raised, `close()` succeeds and the constructor returns
normally with a closed connection. -/
def dbManagerInit (fault : InitFault) : Except PyError DbManager :=
  match fault with
  | InitFault.noFault => Except.ok ⟨some true⟩
  | InitFault.connectFault => DbManager.close ⟨none⟩
  | InitFault.createFault => DbManager.close ⟨some true⟩

/-- Outcome of calling `self.connection.cursor()` on a manager state: the
sqlite3 module raises `ProgrammingError` ("Cannot operate on a closed
database") on a closed connection, and accessing the unassigned attribute
raises `AttributeError`; the store operations of `DatabaseManager` install
no handler, so these propagate to their caller. -/
def cursorOn (m : DbManager) : Except PyError Unit :=
  match m.conn with
  | none => Except.error PyError.attributeError
  | some false => Except.error PyError.programmingError
  | some true => Except.ok ()

/-- Whitespace as Python `str.strip` removes it: space, tab, newline,
carriage return, vertical tab, form feed. -/
def isPySpace (c : Char) : Bool :=
  c = ' ' || c = '\t' || c = '\n' || c = '\r' || c = '\x0b' || c = '\x0c'

/-- Python `str.strip()` with no argument: drop leading and trailing
whitespace. -/
def pyStrip (s : String) : String :=
  String.mk (((s.toList.dropWhile isPySpace).reverse.dropWhile isPySpace).reverse)

/-- Python `file.readlines()` on a text file whose content is `s`: split at
newlines, each line keeping its terminating newline, with no empty final
line when the content ends in a newline (and no lines at all for empty
content). -/
def readlines (s : String) : List String :=
  match ((splitChar '\n' s.toList).map (fun t => String.mk t)).reverse with
  | [] => []
  | last :: revInit =>
    let withNl := revInit.reverse.map (fun p => p ++ "\n")
    if last = "" then withNl else withNl ++ [last]

/-- `TranslationItem.read_file` (source lines 42-51) as a function of the
optional current content of `<title>_<volume>.txt`: when the file exists it
is opened `a+` (content preserved, reads from the start, writes appended at
the end); when it does not, it is created and seeded with the text
`first stage` (no trailing newline).  The result is the content the
subsequent reads and appends operate on. -/
def read_file (fs : Option String) : String :=
  match fs with
  | some content => content
  | none => "first stage"

/-- `TranslationItem.check_for_update` (source lines 53-63): takes the last
element of `readlines`, strips it, and compares it with `self.status`.  On
equality the file is closed untouched and `False` returned; otherwise
`'\n' + status` is appended and `True` returned.  On a pre-existing file
with empty content, `readlines()[-1]` raises `IndexError`, modelled as
`none`.  The returned pair is (result, content of the file afterwards). -/
def check_for_update (status : String) (fs : Option String) : Option (Bool × String) :=
  match (readlines (read_file fs)).getLast? with
  | none => none
  | some lastLine =>
    if status = pyStrip lastLine then
      some (false, read_file fs)
    else
      some (true, read_file fs ++ "\n" ++ status)

/-- One store operation of `DatabaseManager`, for stating invariants that
range over all of them. -/
inductive StoreOp where
  | getLast (t v : String)
  | add (t v s : String)
  | updateNotif (t v s : String)
  | unnotifiedQuery
deriving DecidableEq, Repr

/-- The store state after running one operation (an operation that raises
leaves the store as it was, since the exception escapes before any write
is committed). -/
def applyOp : StoreOp → Db → Db
  | StoreOp.getLast t v, db => (get_last_status t v db).2
  | StoreOp.add t v s, db => add_new_status t v s db
  | StoreOp.updateNotif t v s, db =>
    match update_notification_status t v s db with
    | Except.ok db2 => db2
    | Except.error _ => db
  | StoreOp.unnotifiedQuery, db => (items_with_unsent_notification db).2

/-- Helper: `maxById` never returns `none` on a nonempty list. -/
lemma maxById_ne_none (a : Row) (rest : List Row) : maxById (a :: rest) ≠ none := by
  simp only [maxById]
  cases maxById rest with
  | none => simp
  | some m =>
    simp only []
    split <;> simp

/-- Helper: the row `maxById` returns is a member of the list. -/
lemma maxById_mem {r : Row} : ∀ {l : List Row}, maxById l = some r → r ∈ l := by
  intro l
  induction l with
  | nil => intro h; simp [maxById] at h
  | cons a rest ih =>
    intro h
    simp only [maxById] at h
    cases hm : maxById rest with
    | none =>
      simp only [hm] at h
      injection h with h2
      subst h2
      exact List.mem_cons_self a rest
    | some m =>
      simp only [hm] at h
      by_cases hlt : a.id < m.id
      · rw [if_pos hlt] at h
        injection h with h2
        subst h2
        exact List.mem_cons_of_mem a (ih hm)
      · rw [if_neg hlt] at h
        injection h with h2
        subst h2
        exact List.mem_cons_self a rest

/-- Helper: the row `maxById` returns has the greatest `id` in the list. -/
lemma maxById_ge :
    ∀ {l : List Row} {r : Row}, maxById l = some r → ∀ x ∈ l, x.id ≤ r.id := by
  intro l
  induction l with
  | nil => intro r h; simp [maxById] at h
  | cons a rest ih =>
    intro r h x hx
    simp only [maxById] at h
    cases hm : maxById rest with
    | none =>
      simp only [hm] at h
      injection h with h2
      subst h2
      have hrest : rest = [] := by
        cases rest with
        | nil => rfl
        | cons b bs => exact absurd hm (maxById_ne_none b bs)
      subst hrest
      rcases List.mem_singleton.mp hx with rfl
      exact Nat.le_refl _
    | some m =>
      simp only [hm] at h
      rcases List.mem_cons.mp hx with rfl | hxr
      · by_cases hlt : x.id < m.id
        · rw [if_pos hlt] at h
          injection h with h2
          subst h2
          exact Nat.le_of_lt hlt
        · rw [if_neg hlt] at h
          injection h with h2
          subst h2
          exact Nat.le_refl _
      · by_cases hlt : a.id < m.id
        · rw [if_pos hlt] at h
          injection h with h2
          subst h2
          exact ih hm x hxr
        · rw [if_neg hlt] at h
          injection h with h2
          subst h2
          exact Nat.le_trans (ih hm x hxr) (Nat.le_of_not_lt hlt)

/-- Helper: the UPDATE text the source issues is rejected by SQLite, so
`update_notification_status` raises `sqlite3.OperationalError` on every
input. -/
lemma updateNotificationRaises (t v s : String) (db : Db) :
    update_notification_status t v s db = Except.error PyError.operationalError := by
  unfold update_notification_status
  rw [if_neg]
  rw [show isValidUpdateStmt updateNotificationSql = false from by decide]
  simp

/-- C1: the claim says a second `check` with the identical observation finds
the stored latest status equal to the observed one and appends nothing.
The code compares the status string against the whole fetched row tuple
(or `None`), values of different Python types, so the comparison is false
on every store state: `check` appends on every call, and the second
identical call appends a second row and again reports a change.  The first
conjunct proves the comparison never succeeds; the second evaluates the
double call on the concrete observation ("Overlord", "15", "announced")
against the empty store, ending with two rows. -/
theorem check_always_appends :
    (∀ (t v s : String) (db : Db), check t v s db = (true, add_new_status t v s db)) ∧
    (check "Overlord" "15" "announced"
        (check "Overlord" "15" "announced" emptyDb).2).2.rows.length = 2 := by
  constructor
  · intro t v s db
    have hne : PyVal.vstr s ≠ (get_last_status t v db).1 := by
      show PyVal.vstr s ≠ optRowToPy (selectLastRow t v db)
      cases selectLastRow t v db <;> simp [optRowToPy]
    unfold check
    rw [if_neg hne]
  · decide

/-- C2: the claim says a successful delivery marks the record notified in
the store.  The body of `send_notification` contains no store call at all,
so the store comes back unchanged after every outcome — in particular a
successful send (which returns `True`) marks nothing. -/
theorem send_notification_never_marks :
    ∀ (b : SmtpBehavior) (db : Db),
      (send_notification b db).2 = db ∧ (send_notification SmtpBehavior.success db).1 = true := by
  intro b db
  cases b <;> exact ⟨rfl, rfl⟩

/-- C3: the claim says the unnotified query returns exactly the records with
`notified = false` in id order.  The method body is the Ellipsis literal,
so it returns Python `None` on every store state, even when unnotified
records exist. -/
theorem items_with_unsent_notification_returns_none :
    ∀ db : Db, items_with_unsent_notification db = (PyVal.vnone, db) := by
  intro db
  rfl

/-- C4: the claim says marking a record notified sets the flag and is an
idempotent no-op the second time.  The issued statement
`UPDATE items (is_notified) VALUES (TRUE) WHERE ...` is not valid SQLite
(UPDATE requires `SET` after the table name), so every call — first or
second — raises `sqlite3.OperationalError` and updates nothing. -/
theorem update_notification_status_always_errors :
    ∀ (t v s : String) (db : Db),
      update_notification_status t v s db = Except.error PyError.operationalError := by
  intro t v s db
  exact updateNotificationRaises t v s db

/-- C5: the claim says a run first re-attempts delivery for unnotified
records and then delivers once per detected change.  The loop of
`find_item` performs no reconciliation pass and never calls
`send_notification` (the call is commented out): the list of e-mails sent
is empty in every run, including the concrete run over the single
observation ("Overlord", "15", "announced") on the empty store, which
detects a change and stores an unnotified row yet delivers nothing. -/
theorem find_item_never_delivers :
    (∀ (obs : List Observation) (db : Db), (find_item obs db).2 = []) ∧
    find_item [⟨"Overlord", "15", "announced"⟩] emptyDb
      = (⟨[⟨1, "Overlord", "15", "announced", false⟩], 2⟩, []) := by
  constructor
  · intro obs db
    rfl
  · decide

/-- C6: `get_last_status` performs no write (the store comes back
unchanged), returns the fetched row converted by
`results[0] if results else None`, and the fetched row is `none` exactly
when no record matches `(title, volume)`; otherwise it is a matching stored
record whose `id` is maximal among the matching ones. -/
theorem get_last_status_correct :
    ∀ (t v : String) (db : Db),
      (get_last_status t v db).2 = db ∧
      (get_last_status t v db).1 = optRowToPy (selectLastRow t v db) ∧
      (match selectLastRow t v db with
       | none => db.rows.filter (matchesKey t v) = []
       | some r => matchesKey t v r = true ∧ r ∈ db.rows ∧
           db.rows.all (fun x => !matchesKey t v x || decide (x.id ≤ r.id)) = true) := by
  intro t v db
  refine ⟨rfl, rfl, ?_⟩
  cases hsel : selectLastRow t v db with
  | none =>
    simp only [selectLastRow] at hsel
    cases hf : db.rows.filter (matchesKey t v) with
    | nil => rfl
    | cons b bs =>
      rw [hf] at hsel
      exact absurd hsel (maxById_ne_none b bs)
  | some r =>
    simp only [selectLastRow] at hsel
    have hmem := maxById_mem hsel
    have hge := maxById_ge hsel
    have hm2 := List.mem_filter.mp hmem
    refine ⟨hm2.2, hm2.1, ?_⟩
    rw [List.all_eq_true]
    intro x hxmem
    by_cases hkx : matchesKey t v x = true
    · have hxf : x ∈ db.rows.filter (matchesKey t v) := List.mem_filter.mpr ⟨hxmem, hkx⟩
      simp only [hkx, Bool.not_true, Bool.false_or, decide_eq_true_eq]
      exact hge x hxf
    · simp [hkx]

/-- C7: every store operation leaves the existing rows untouched (so no
`notified` flag ever reverts from true to false) and appends only rows
created with `is_notified = false`: reads change nothing, `add_new_status`
appends one row taking the column default `is_notified = 0`, and the
rejected UPDATE of `update_notification_status` modifies nothing. -/
theorem store_ops_create_unnotified_and_preserve :
    ∀ (op : StoreOp) (db : Db), ∃ newRows : List Row,
      (applyOp op db).rows = db.rows ++ newRows ∧
      newRows.all (fun r => r.is_notified == false) = true := by
  intro op db
  cases op with
  | getLast t v => exact ⟨[], by simp [applyOp, get_last_status], rfl⟩
  | add t v s => exact ⟨[⟨db.nextId, t, v, s, false⟩], rfl, rfl⟩
  | updateNotif t v s =>
    refine ⟨[], ?_, rfl⟩
    simp [applyOp, updateNotificationRaises]
  | unnotifiedQuery => exact ⟨[], by simp [applyOp, items_with_unsent_notification], rfl⟩

/-- C8 counterexample: the claim says the returned outcome distinguishes an
authentication failure from any other transport failure.  On the concrete
empty store, the value `send_notification` returns after
`SMTPAuthenticationError` equals the value it returns after any other
exception (both are `False`), so the outcome does not distinguish them. -/
theorem send_notification_outcome_indistinct :
    (send_notification SmtpBehavior.authError emptyDb).1
      = (send_notification SmtpBehavior.otherError emptyDb).1 := by
  rfl

/-- C8 amended: `send_notification` returns a two-way boolean — `True`
exactly on success, `False` on an authentication failure and `False` on
any other transport failure (the two failure kinds differ only in what is
logged) — and in both failure cases the store is unchanged, so the record
stays unnotified. -/
theorem send_notification_bool_outcomes :
    ∀ db : Db,
      send_notification SmtpBehavior.success db = (true, db) ∧
      send_notification SmtpBehavior.authError db = (false, db) ∧
      send_notification SmtpBehavior.otherError db = (false, db) := by
  intro db
  exact ⟨rfl, rfl, rfl⟩

/-- C9 counterexample: the claim says every storage-layer fault surfaces to
the caller as an error.  A `sqlite3.Error` raised by the `CREATE TABLE`
step of `DatabaseManager.__init__` is caught by the handler, which logs
and closes the connection without re-raising: the constructor returns
normally, so no error of any kind reaches the caller. -/
theorem init_fault_swallowed :
    dbManagerInit InitFault.createFault = Except.ok ⟨some false⟩ := by
  rfl

/-- C9 amended: the constructor of `DatabaseManager` does not surface
storage faults as storage errors.  A fault-free construction yields an open
connection; a fault in `CREATE TABLE` is caught, logged and swallowed (the
constructor returns normally with a closed connection, and the failure
resurfaces only as `sqlite3.ProgrammingError` when a later operation opens
a cursor on it); a fault in `sqlite3.connect` escapes only as the handler's
own `AttributeError` on the unassigned `self.connection`, not as the
storage error. -/
theorem dbManagerInit_fault_behavior :
    dbManagerInit InitFault.noFault = Except.ok ⟨some true⟩ ∧
    dbManagerInit InitFault.createFault = Except.ok ⟨some false⟩ ∧
    cursorOn ⟨some false⟩ = Except.error PyError.programmingError ∧
    dbManagerInit InitFault.connectFault = Except.error PyError.attributeError := by
  exact ⟨rfl, rfl, rfl, rfl⟩

/-- C10: on a missing history file, `read_file` creates it seeded with the
sentinel text `first stage`, and `check_for_update` compares the observed
status against the stripped last line, i.e. the sentinel: a first status
equal to `first stage` yields `False` with the file content untouched,
while any other first status yields `True` with the status appended as a
new line. -/
theorem first_observation_sentinel :
    ∀ status : String,
      read_file none = "first stage" ∧
      check_for_update status none =
        (if status = "first stage" then some (false, "first stage")
         else some (true, "first stage" ++ "\n" ++ status)) := by
  intro status
  refine ⟨rfl, ?_⟩
  have h1 : (readlines (read_file none)).getLast? = some "first stage" := by decide
  have h2 : pyStrip "first stage" = "first stage" := by decide
  simp only [check_for_update, h1, h2]
  by_cases h : status = "first stage" <;> simp [h, read_file]
